import Mathlib

/-!
Verification development for the PySpark packaging script (`python/setup.py`).

The script is embedded shallowly: the filesystem is an association list from
path strings to nodes, every OS call the script performs (`os.mkdir`,
`os.symlink`, `shutil.copyfile`, `os.makedirs`, `os.path.isfile`,
`os.path.isdir`, `os.listdir`, `os.remove`, `os.rmdir`) is a pure function on
that state, and the two external collaborators (the pypandoc document
converter and the setuptools archiver) are opaque parameters of the run.
`runSetup` is the whole script, including the try/finally teardown with
Python's exception-replacement semantics in `finally` blocks.
-/

/-- A filesystem node: a regular file with string content, a directory, or a
symbolic link storing its target path verbatim. -/
inductive Node where
  | file (content : String)
  | dir
  | symlink (target : String)
deriving DecidableEq, Repr

/-- The filesystem: an association list from path strings (relative to the
working directory, `..` denoting the monorepo root) to nodes. -/
abbrev FS := List (String × Node)

/-- Look up the node stored at a path (no symlink resolution). -/
def fsLookup (fs : FS) (p : String) : Option Node :=
  (fs.find? (fun e => e.1 == p)).map (fun e => e.2)

/-- Drop the entry at a path, if any. -/
def fsRemoveKey (fs : FS) (p : String) : FS :=
  fs.filter (fun e => !(e.1 == p))

/-- Store a node at a path, replacing any previous entry. -/
def fsSet (fs : FS) (p : String) (n : Node) : FS :=
  (p, n) :: fsRemoveKey fs p

/-- The parent directory of a path; `""` denotes the working directory. -/
def parentOf (p : String) : String :=
  match (p.toList.reverse).dropWhile (fun c => !(c = '/')) with
  | [] => ""
  | _ :: rest => String.mk rest.reverse

/-- The final component of a path. -/
def baseName (p : String) : String :=
  String.mk ((p.toList.reverse).takeWhile (fun c => !(c = '/'))).reverse

/-- All prefixes of a path that end at a component boundary, shortest first
(the directories `os.makedirs` walks). -/
def pathPrefixesAux (acc : List Char) : List Char → List String
  | [] => [String.mk acc.reverse]
  | c :: rest =>
    if c = '/' then String.mk acc.reverse :: pathPrefixesAux (c :: acc) rest
    else pathPrefixesAux (c :: acc) rest

/-- The component-boundary prefixes of a path, shortest first. -/
def pathPrefixes (p : String) : List String :=
  pathPrefixesAux [] p.toList

/-- Names of the direct children of a directory path (`os.listdir`). -/
def childNames (fs : FS) (p : String) : List String :=
  (fs.filter (fun e => parentOf e.1 == p)).map (fun e => baseName e.1)

/-- Resolve one level of symlink at the final path component. -/
def resolve1 (fs : FS) (p : String) : String :=
  match fsLookup fs p with
  | some (Node.symlink t) => t
  | _ => p

/-- `os.path.isfile`: true when the path (following a symlink) is a file. -/
def isfile (fs : FS) (p : String) : Bool :=
  match fsLookup fs (resolve1 fs p) with
  | some (Node.file _) => true
  | _ => false

/-- `os.path.isdir`: true when the path (following a symlink) is a directory. -/
def isdir (fs : FS) (p : String) : Bool :=
  match fsLookup fs (resolve1 fs p) with
  | some Node.dir => true
  | _ => false

/-- A path usable as the parent of a new entry: the working directory itself
or an existing directory. -/
def isDirOrRoot (fs : FS) (p : String) : Bool :=
  p == "" || isdir fs p

/-- The errors the script can raise or observe. `systemExit` models
`exit(n)`; `oserror` models an environmental failure such as a permission
error; the collaborator errors wrap whatever the opaque collaborators raise. -/
inductive Err where
  | fileExists (p : String)
  | fileNotFound (p : String)
  | isADir (p : String)
  | notADir (p : String)
  | dirNotEmpty (p : String)
  | oserror (msg : String)
  | nameError (v : String)
  | converterError (msg : String)
  | archiverError (msg : String)
  | systemExit (code : Int)
deriving DecidableEq, Repr

/-- `os.mkdir`: fails on an environmental fault, an existing path, or a
missing parent; otherwise creates the directory. -/
def osMkdir (fault : Option String) (fs : FS) (p : String) : Except Err FS :=
  match fault with
  | some m => Except.error (Err.oserror m)
  | none =>
    if (fsLookup fs p).isSome then Except.error (Err.fileExists p)
    else if isDirOrRoot fs (parentOf p) then Except.ok (fsSet fs p Node.dir)
    else Except.error (Err.fileNotFound (parentOf p))

/-- `os.symlink src tgt`: fails when `tgt` exists or its parent is missing;
the source need not exist. -/
def osSymlink (fs : FS) (src tgt : String) : Except Err FS :=
  if (fsLookup fs tgt).isSome then Except.error (Err.fileExists tgt)
  else if isDirOrRoot fs (parentOf tgt) then Except.ok (fsSet fs tgt (Node.symlink src))
  else Except.error (Err.fileNotFound (parentOf tgt))

/-- Read a file's content, following a symlink at the final component. -/
def readFile (fs : FS) (p : String) : Except Err String :=
  match fsLookup fs (resolve1 fs p) with
  | some (Node.file c) => Except.ok c
  | some _ => Except.error (Err.isADir p)
  | none => Except.error (Err.fileNotFound p)

/-- Write content at a path, following a symlink at the final component;
fails when the parent directory is missing or the target is a directory. -/
def writeFile (fs : FS) (p : String) (c : String) : Except Err FS :=
  if isDirOrRoot fs (parentOf p) then
    let rp := resolve1 fs p
    match fsLookup fs rp with
    | some Node.dir => Except.error (Err.isADir p)
    | _ => Except.ok (fsSet fs rp (Node.file c))
  else Except.error (Err.fileNotFound (parentOf p))

/-- `shutil.copyfile`: read the source, write the destination. -/
def copyfile (fs : FS) (src dst : String) : Except Err FS :=
  match readFile fs src with
  | Except.error e => Except.error e
  | Except.ok c => writeFile fs dst c

/-- The walk `os.makedirs` performs over the component-boundary prefixes of
its argument: intermediate directories are created as needed, an existing
non-directory is an error, and an existing leaf is `FileExistsError`. -/
def makedirsAux (fs : FS) : List String → Except Err FS
  | [] => Except.ok fs
  | [q] =>
    match fsLookup fs q with
    | some _ => Except.error (Err.fileExists q)
    | none => Except.ok (fsSet fs q Node.dir)
  | q :: rest =>
    match fsLookup fs q with
    | some Node.dir => makedirsAux fs rest
    | some _ => Except.error (Err.fileExists q)
    | none => makedirsAux (fsSet fs q Node.dir) rest

/-- `os.makedirs` with the default `exist_ok=False`. -/
def osMakedirs (fs : FS) (p : String) : Except Err FS :=
  makedirsAux fs (pathPrefixes p)

/-- `os.listdir`: the names of the entries of a directory, following a
symlink at the final component. -/
def osListdir (fs : FS) (p : String) : Except Err (List String) :=
  let rp := resolve1 fs p
  match fsLookup fs rp with
  | some Node.dir => Except.ok (childNames fs rp)
  | some _ => Except.error (Err.notADir p)
  | none => Except.error (Err.fileNotFound p)

/-- `os.remove`: removes a file or symlink entry (never following the link),
failing on a missing path or a directory. -/
def osRemove (fs : FS) (p : String) : Except Err FS :=
  match fsLookup fs p with
  | none => Except.error (Err.fileNotFound p)
  | some Node.dir => Except.error (Err.isADir p)
  | some _ => Except.ok (fsRemoveKey fs p)

/-- `os.rmdir`: removes an empty directory. -/
def osRmdir (fs : FS) (p : String) : Except Err FS :=
  match fsLookup fs p with
  | none => Except.error (Err.fileNotFound p)
  | some Node.dir =>
    if childNames fs p == [] then Except.ok (fsRemoveKey fs p)
    else Except.error (Err.dirNotEmpty p)
  | some _ => Except.error (Err.notADir p)

/-- `VERSION` from the script. -/
def VERSION : String := "2.1.0.dev"

/-- `TEMP_PATH` from the script: the staging root. -/
def TEMP_PATH : String := "deps"

/-- `SPARK_HOME = os.path.abspath("../")`, kept in relative form. -/
def SPARK_HOME : String := ".."

/-- `JARS_PATH` from the script (the trailing slash is verbatim). -/
def JARS_PATH : String := SPARK_HOME ++ "/assembly/target/scala-2.11/jars/"

/-- `EXAMPLES_PATH` from the script. -/
def EXAMPLES_PATH : String := SPARK_HOME ++ "/examples/src/main/python"

/-- `SCRIPTS_PATH` from the script. -/
def SCRIPTS_PATH : String := SPARK_HOME ++ "/bin"

/-- `SCRIPTS_TARGET` from the script. -/
def SCRIPTS_TARGET : String := TEMP_PATH ++ "/bin"

/-- `JARS_TARGET` from the script. -/
def JARS_TARGET : String := TEMP_PATH ++ "/jars"

/-- `EXAMPLES_TARGET` from the script. -/
def EXAMPLES_TARGET : String := TEMP_PATH ++ "/examples"

/-- The monorepo marker file whose presence selects InTree context. -/
def markerPath : String := "../core/src/main/scala/org/apache/spark/SparkContext.scala"

/-- The placeholder long description substituted when pypandoc is missing. -/
def placeholderDescription : String := "!!!!! missing pandoc do not upload to PyPi !!!!"

/-- Outcome of invoking the document converter collaborator: pypandoc is
importable and converts, it is not importable (`ImportError`), or the
conversion itself raises some other error. -/
inductive ConvResult where
  | converted (text : String)
  | unavailable
  | failed (msg : String)
deriving DecidableEq, Repr

/-- The opaque collaborators and environment of one run: converter outcome,
archiver error (if it raises), the archiver's effect on the filesystem, and
an environmental fault injected into `os.mkdir(TEMP_PATH)` (for example a
permission error). -/
structure Collab where
  conv : ConvResult
  archErr : Option String
  archEffect : FS → FS
  mkdirFault : Option String

/-- Observable side-effect events of a run, in order. -/
inductive Event where
  | mkdirE (p : String)
  | symlinkE (src tgt : String)
  | copyE (src tgt : String)
  | makedirsE (p : String)
  | removeE (p : String)
  | rmdirE (p : String)
  | archiverCall
deriving DecidableEq, Repr

/-- The metadata-relevant arguments the script passes to `setup(...)`. -/
structure SetupArgs where
  pkgName : String
  version : String
  long_description : String
  scripts : List String
deriving DecidableEq, Repr

/-- A surfaced failure: the propagated error together with the in-flight
error it replaced, if any (Python's implicit exception chaining). -/
structure Failure where
  err : Err
  context : Option Err
deriving DecidableEq, Repr

/-- Final outcome of a run. -/
inductive Outcome where
  | success
  | failure (f : Failure)
deriving DecidableEq, Repr

/-- Mutable state threaded through the run. -/
structure St where
  fs : FS
  trace : List Event
  errOut : List String
  setupArgs : Option SetupArgs
deriving DecidableEq, Repr

/-- Everything observable about one completed run. -/
structure RunResult where
  outcome : Outcome
  fs : FS
  trace : List Event
  errOut : List String
  setupArgs : Option SetupArgs
deriving DecidableEq, Repr

/-- The stderr line printed before the already-staged exit. -/
def alreadyStagedMsg : String :=
  "Temp path for symlink to parent already exists " ++ TEMP_PATH

/-- The stderr line printed when pypandoc cannot be imported. -/
def pandocMsg : String := "Could not import pypandoc - required to package PySpark"

/-- The stderr line printed before the missing-artifacts exit. -/
def missingArtifactsMsg : String :=
  "For packaging reasons you must first create a source dist and install that source dist."

/-- The context check `os.path.isfile("../core/.../SparkContext.scala")`. -/
def detectInSpark (fs : FS) : Bool := isfile fs markerPath

/-- The tail of the try block shared by both contexts: the scripts-target
existence check, `os.listdir`, evaluation of the `setup(...)` arguments
(raising `NameError` when `long_description` was never assigned), and the
delegated archiver call. -/
def pipelineTail (collab : Collab) (longDescription : Option String) (st : St) :
    Except Err Unit × St :=
  if isdir st.fs SCRIPTS_TARGET then
    match osListdir st.fs SCRIPTS_TARGET with
    | Except.error e => (Except.error e, st)
    | Except.ok script_names =>
      let scripts := script_names.map (fun s => SCRIPTS_TARGET ++ "/" ++ s)
      match longDescription with
      | none => (Except.error (Err.nameError "long_description"), st)
      | some ld =>
        let args : SetupArgs :=
          { pkgName := "pyspark", version := VERSION, long_description := ld,
            scripts := scripts }
        let st1 : St :=
          { st with fs := collab.archEffect st.fs,
                    trace := st.trace ++ [Event.archiverCall],
                    setupArgs := some args }
        match collab.archErr with
        | some m => (Except.error (Err.archiverError m), st1)
        | none => (Except.ok (), st1)
  else
    (Except.error (Err.systemExit (-1)),
     { st with errOut := st.errOut ++ [missingArtifactsMsg] })

/-- The body of the outer try block: the symlink farm and pypandoc block in
InTree context, the two direct copies in Staged context, then the shared
tail. In Staged context `long_description` is never assigned. -/
def tryBody (collab : Collab) (in_spark : Bool) (st : St) : Except Err Unit × St :=
  if in_spark then
    match osSymlink st.fs JARS_PATH JARS_TARGET with
    | Except.error e => (Except.error e, st)
    | Except.ok fs1 =>
      let st1 : St := { st with fs := fs1,
                                trace := st.trace ++ [Event.symlinkE JARS_PATH JARS_TARGET] }
      match osSymlink st1.fs SCRIPTS_PATH SCRIPTS_TARGET with
      | Except.error e => (Except.error e, st1)
      | Except.ok fs2 =>
        let st2 : St := { st1 with fs := fs2,
                                   trace := st1.trace ++ [Event.symlinkE SCRIPTS_PATH SCRIPTS_TARGET] }
        match osSymlink st2.fs EXAMPLES_PATH EXAMPLES_TARGET with
        | Except.error e => (Except.error e, st2)
        | Except.ok fs3 =>
          let st3 : St := { st2 with fs := fs3,
                                     trace := st2.trace ++ [Event.symlinkE EXAMPLES_PATH EXAMPLES_TARGET] }
          match collab.conv with
          | ConvResult.converted t => pipelineTail collab (some t) st3
          | ConvResult.unavailable =>
            pipelineTail collab (some placeholderDescription)
              { st3 with errOut := st3.errOut ++ [pandocMsg] }
          | ConvResult.failed m => (Except.error (Err.converterError m), st3)
  else
    match copyfile st.fs "pyspark/find_spark_home.py" (SCRIPTS_TARGET ++ "/find_spark_home.py") with
    | Except.error e => (Except.error e, st)
    | Except.ok fs1 =>
      let st1 : St := { st with fs := fs1,
                                trace := st.trace ++ [Event.copyE "pyspark/find_spark_home.py" (SCRIPTS_TARGET ++ "/find_spark_home.py")] }
      match osMakedirs st1.fs "pyspark/python/pyspark" with
      | Except.error e => (Except.error e, st1)
      | Except.ok fs2 =>
        let st2 : St := { st1 with fs := fs2,
                                   trace := st1.trace ++ [Event.makedirsE "pyspark/python/pyspark"] }
        match copyfile st2.fs "pyspark/shell.py" "pyspark/python/pyspark/shell.py" with
        | Except.error e => (Except.error e, st2)
        | Except.ok fs3 =>
          let st3 : St := { st2 with fs := fs3,
                                     trace := st2.trace ++ [Event.copyE "pyspark/shell.py" "pyspark/python/pyspark/shell.py"] }
          pipelineTail collab none st3

/-- The finally block: in InTree context remove the three symlink entries and
then the staging root, stopping at the first failing removal; in Staged
context a no-op. -/
def teardown (in_spark : Bool) (st : St) : Except Err Unit × St :=
  if in_spark then
    match osRemove st.fs (TEMP_PATH ++ "/jars") with
    | Except.error e => (Except.error e, st)
    | Except.ok fs1 =>
      let st1 : St := { st with fs := fs1, trace := st.trace ++ [Event.removeE (TEMP_PATH ++ "/jars")] }
      match osRemove st1.fs (TEMP_PATH ++ "/bin") with
      | Except.error e => (Except.error e, st1)
      | Except.ok fs2 =>
        let st2 : St := { st1 with fs := fs2, trace := st1.trace ++ [Event.removeE (TEMP_PATH ++ "/bin")] }
        match osRemove st2.fs (TEMP_PATH ++ "/examples") with
        | Except.error e => (Except.error e, st2)
        | Except.ok fs3 =>
          let st3 : St := { st2 with fs := fs3, trace := st2.trace ++ [Event.removeE (TEMP_PATH ++ "/examples")] }
          match osRmdir st3.fs TEMP_PATH with
          | Except.error e => (Except.error e, st3)
          | Except.ok fs4 =>
            (Except.ok (), { st3 with fs := fs4, trace := st3.trace ++ [Event.rmdirE TEMP_PATH] })
  else (Except.ok (), st)

/-- Combine the try-body result and the finally result with Python's
semantics: an error raised in `finally` replaces the in-flight error, which
is kept as its context. -/
def combineOutcome (body : Except Err Unit) (fin : Except Err Unit) : Outcome :=
  match body, fin with
  | Except.ok _, Except.ok _ => Outcome.success
  | Except.error a, Except.ok _ => Outcome.failure ⟨a, none⟩
  | Except.ok _, Except.error b => Outcome.failure ⟨b, none⟩
  | Except.error a, Except.error b => Outcome.failure ⟨b, some a⟩

/-- Run the try/finally region from a given state. -/
def runTryFinally (collab : Collab) (in_spark : Bool) (st : St) : RunResult :=
  let r := tryBody collab in_spark st
  let t := teardown in_spark r.2
  { outcome := combineOutcome r.1 t.1,
    fs := t.2.fs, trace := t.2.trace, errOut := t.2.errOut, setupArgs := t.2.setupArgs }

/-- The whole script: context detection, the guarded `os.mkdir(TEMP_PATH)`
whose bare `except` prints the already-staged message and exits before the
try/finally region, then the try/finally region itself. -/
def runSetup (fs0 : FS) (collab : Collab) : RunResult :=
  let in_spark := detectInSpark fs0
  if in_spark then
    match osMkdir collab.mkdirFault fs0 TEMP_PATH with
    | Except.error _ =>
      { outcome := Outcome.failure ⟨Err.systemExit (-1), none⟩,
        fs := fs0, trace := [], errOut := [alreadyStagedMsg], setupArgs := none }
    | Except.ok fs1 =>
      runTryFinally collab in_spark { fs := fs1, trace := [Event.mkdirE TEMP_PATH], errOut := [], setupArgs := none }
  else
    runTryFinally collab in_spark { fs := fs0, trace := [], errOut := [], setupArgs := none }

/-- Exit status of an outcome: 0 on success, the `exit` argument on a
`SystemExit`, 1 on any other uncaught error. -/
def exitCode (o : Outcome) : Int :=
  match o with
  | Outcome.success => 0
  | Outcome.failure f =>
    match f.err with
    | Err.systemExit c => c
    | _ => 1

/-! ### Helper lemmas for lookups over filesystem updates -/

theorem fsLookup_cons (k : String) (n : Node) (fs : FS) (q : String) :
    fsLookup ((k, n) :: fs) q = if (k == q) then some n else fsLookup fs q := by
  by_cases h : (k == q) = true
  · simp [fsLookup, List.find?_cons, h]
  · simp only [Bool.not_eq_true] at h
    simp [fsLookup, List.find?_cons, h]

theorem fsRemoveKey_cons (k : String) (n : Node) (fs : FS) (p : String) :
    fsRemoveKey ((k, n) :: fs) p =
      if (k == p) then fsRemoveKey fs p else (k, n) :: fsRemoveKey fs p := by
  by_cases h : (k == p) = true
  · simp [fsRemoveKey, List.filter_cons, h]
  · simp only [Bool.not_eq_true] at h
    simp [fsRemoveKey, List.filter_cons, h]

theorem fsRemoveKey_of_lookup_none (fs : FS) (p : String)
    (h : fsLookup fs p = none) : fsRemoveKey fs p = fs := by
  have hall : ∀ e ∈ fs, (e.1 == p) = false := by
    intro e he
    by_contra hne
    simp only [Bool.not_eq_false] at hne
    have : (fs.find? (fun e => e.1 == p)).isSome = true :=
      List.find?_isSome.mpr ⟨e, he, hne⟩
    rw [fsLookup] at h
    rcases Option.isSome_iff_exists.mp this with ⟨x, hx⟩
    rw [hx] at h
    simp at h
  unfold fsRemoveKey
  apply List.filter_eq_self.mpr
  intro e he
  simp [hall e he]

theorem fsSet_of_lookup_none (fs : FS) (p : String) (n : Node)
    (h : fsLookup fs p = none) : fsSet fs p n = (p, n) :: fs := by
  rw [fsSet, fsRemoveKey_of_lookup_none fs p h]

theorem childNames_eq_nil (fs : FS) (d : String)
    (h : ∀ e ∈ fs, (parentOf e.1 == d) = false) : childNames fs d = [] := by
  unfold childNames
  rw [List.filter_eq_nil_iff.mpr]
  · rfl
  · intro e he
    simp [h e he]

/-! ### Concrete path computations -/

theorem parentOf_temp : parentOf "deps" = "" := by decide

theorem parentOf_jars : parentOf "deps/jars" = "deps" := by decide

theorem parentOf_bin : parentOf "deps/bin" = "deps" := by decide

theorem parentOf_examples : parentOf "deps/examples" = "deps" := by decide

theorem parentOf_fsh_target : parentOf "deps/bin/find_spark_home.py" = "deps/bin" := by decide

theorem parentOf_shell_target :
    parentOf "pyspark/python/pyspark/shell.py" = "pyspark/python/pyspark" := by decide

theorem pathPrefixes_subpkg :
    pathPrefixes "pyspark/python/pyspark" = ["pyspark", "pyspark/python", "pyspark/python/pyspark"] := by
  decide

theorem isDirOrRoot_root (fs : FS) : isDirOrRoot fs "" = true := rfl

/-! ### C4 and C10 -/

/-- C4: if a run leaves the staging root `deps` in place in InTree context, a
second run with no manual cleanup fails with the already-staged error (exit
-1), performs no side effect at all (empty trace, filesystem unchanged), and
in particular neither overwrites nor re-establishes any linkage entry. -/
theorem second_run_already_staged (fs0 : FS) (c1 c2 : Collab) (cm : String) (n : Node)
    (hm : fsLookup (runSetup fs0 c1).fs markerPath = some (Node.file cm))
    (hd : fsLookup (runSetup fs0 c1).fs TEMP_PATH = some n) :
    runSetup (runSetup fs0 c1).fs c2 =
      { outcome := Outcome.failure ⟨Err.systemExit (-1), none⟩,
        fs := (runSetup fs0 c1).fs, trace := [], errOut := [alreadyStagedMsg],
        setupArgs := none } ∧
    exitCode (runSetup (runSetup fs0 c1).fs c2).outcome ≠ 0 := by
  generalize (runSetup fs0 c1).fs = g at hm hd
  have hrun : runSetup g c2 =
      { outcome := Outcome.failure ⟨Err.systemExit (-1), none⟩,
        fs := g, trace := [], errOut := [alreadyStagedMsg], setupArgs := none } := by
    cases hf : c2.mkdirFault with
    | none => simp [runSetup, detectInSpark, isfile, resolve1, hm, osMkdir, hf, hd]
    | some m => simp [runSetup, detectInSpark, isfile, resolve1, hm, osMkdir, hf]
  refine ⟨hrun, ?_⟩
  rw [hrun]
  simp [exitCode]

/-- C10: when `os.mkdir(TEMP_PATH)` fails for an environmental reason (for
example a permission error) even though the staging root does not exist, the
bare `except` still reports the already-staged condition and exits -1 before
establishing any linkage entry and without running teardown (empty trace,
filesystem unchanged). -/
theorem mkdir_fault_reports_already_staged (fs : FS) (c : Collab) (cm m : String)
    (hm : fsLookup fs markerPath = some (Node.file cm))
    (hfault : c.mkdirFault = some m)
    (hd : fsLookup fs TEMP_PATH = none) :
    runSetup fs c =
      { outcome := Outcome.failure ⟨Err.systemExit (-1), none⟩,
        fs := fs, trace := [], errOut := [alreadyStagedMsg], setupArgs := none } ∧
    exitCode (runSetup fs c).outcome ≠ 0 := by
  have hrun : runSetup fs c =
      { outcome := Outcome.failure ⟨Err.systemExit (-1), none⟩,
        fs := fs, trace := [], errOut := [alreadyStagedMsg], setupArgs := none } := by
    simp [runSetup, detectInSpark, isfile, resolve1, hm, osMkdir, hfault]
  refine ⟨hrun, ?_⟩
  rw [hrun]
  simp [exitCode]

/-! ### Staged-context runs -/

set_option maxHeartbeats 1000000

/-- Computes a whole Staged-context run: both copies and the `makedirs`
succeed, and the run then dies with `NameError` at the `setup(...)` call
because `long_description` is only ever assigned in the InTree branch. -/
theorem staged_run_eq (fs : FS) (collab : Collab) (c1 c2 : String)
    (hm : fsLookup fs markerPath = none)
    (hsrc1 : fsLookup fs "pyspark/find_spark_home.py" = some (Node.file c1))
    (hsrc2 : fsLookup fs "pyspark/shell.py" = some (Node.file c2))
    (hbin : fsLookup fs "deps/bin" = some Node.dir)
    (hfshT : fsLookup fs "deps/bin/find_spark_home.py" = none)
    (hpy : fsLookup fs "pyspark" = some Node.dir)
    (hpp : fsLookup fs "pyspark/python" = none)
    (hppp : fsLookup fs "pyspark/python/pyspark" = none)
    (hshT : fsLookup fs "pyspark/python/pyspark/shell.py" = none) :
    runSetup fs collab =
      { outcome := Outcome.failure ⟨Err.nameError "long_description", none⟩,
        fs := ("pyspark/python/pyspark/shell.py", Node.file c2) ::
              ("pyspark/python/pyspark", Node.dir) ::
              ("pyspark/python", Node.dir) ::
              ("deps/bin/find_spark_home.py", Node.file c1) :: fs,
        trace := [Event.copyE "pyspark/find_spark_home.py" "deps/bin/find_spark_home.py",
                  Event.makedirsE "pyspark/python/pyspark",
                  Event.copyE "pyspark/shell.py" "pyspark/python/pyspark/shell.py"],
        errOut := [], setupArgs := none } := by
  simp [runSetup, detectInSpark, isfile, resolve1, hm, runTryFinally, tryBody,
    copyfile, readFile, writeFile, isDirOrRoot, isdir, SCRIPTS_TARGET, TEMP_PATH,
    parentOf_fsh_target, parentOf_shell_target, parentOf_bin,
    hsrc1, hsrc2, hbin, hfshT, hpy, hpp, hppp, hshT,
    osMakedirs, pathPrefixes_subpkg, makedirsAux,
    fsSet, fsLookup_cons, fsRemoveKey_cons, fsRemoveKey_of_lookup_none,
    pipelineTail, osListdir, teardown, combineOutcome]

/-- C6: in every Staged-context run whose copy step completes, the two fixed
copy targets exist afterward with byte-identical content to their source
files, the staging root is never created (no `mkdir` of it, entry
unchanged), and teardown performs no removals. -/
theorem staged_copies_and_no_staging_root (fs : FS) (collab : Collab) (c1 c2 : String)
    (hm : fsLookup fs markerPath = none)
    (hsrc1 : fsLookup fs "pyspark/find_spark_home.py" = some (Node.file c1))
    (hsrc2 : fsLookup fs "pyspark/shell.py" = some (Node.file c2))
    (hbin : fsLookup fs "deps/bin" = some Node.dir)
    (hfshT : fsLookup fs "deps/bin/find_spark_home.py" = none)
    (hpy : fsLookup fs "pyspark" = some Node.dir)
    (hpp : fsLookup fs "pyspark/python" = none)
    (hppp : fsLookup fs "pyspark/python/pyspark" = none)
    (hshT : fsLookup fs "pyspark/python/pyspark/shell.py" = none) :
    fsLookup (runSetup fs collab).fs "deps/bin/find_spark_home.py" = some (Node.file c1) ∧
    fsLookup (runSetup fs collab).fs "pyspark/python/pyspark/shell.py" = some (Node.file c2) ∧
    Event.mkdirE TEMP_PATH ∉ (runSetup fs collab).trace ∧
    fsLookup (runSetup fs collab).fs TEMP_PATH = fsLookup fs TEMP_PATH ∧
    (∀ p, Event.removeE p ∉ (runSetup fs collab).trace) ∧
    (∀ p, Event.rmdirE p ∉ (runSetup fs collab).trace) := by
  rw [staged_run_eq fs collab c1 c2 hm hsrc1 hsrc2 hbin hfshT hpy hpp hppp hshT]
  refine ⟨?_, ?_, ?_, ?_, ?_, ?_⟩
  · simp [fsLookup_cons]
  · simp [fsLookup_cons]
  · simp [TEMP_PATH]
  · simp [fsLookup_cons, TEMP_PATH]
  · intro p
    simp
  · intro p
    simp

/-- C9: a second Staged-context run immediately after a first one (no cleanup
in between) fails with `FileExistsError` on `os.makedirs` of the fixed
internal subpackage directory, which the first run left behind, before
manifest assembly is ever attempted. -/
theorem second_staged_run_fails_makedirs (fs : FS) (ca cb : Collab) (c1 c2 : String)
    (hm : fsLookup fs markerPath = none)
    (hsrc1 : fsLookup fs "pyspark/find_spark_home.py" = some (Node.file c1))
    (hsrc2 : fsLookup fs "pyspark/shell.py" = some (Node.file c2))
    (hbin : fsLookup fs "deps/bin" = some Node.dir)
    (hfshT : fsLookup fs "deps/bin/find_spark_home.py" = none)
    (hpy : fsLookup fs "pyspark" = some Node.dir)
    (hpp : fsLookup fs "pyspark/python" = none)
    (hppp : fsLookup fs "pyspark/python/pyspark" = none)
    (hshT : fsLookup fs "pyspark/python/pyspark/shell.py" = none) :
    (runSetup (runSetup fs ca).fs cb).outcome =
      Outcome.failure ⟨Err.fileExists "pyspark/python/pyspark", none⟩ ∧
    Event.archiverCall ∉ (runSetup (runSetup fs ca).fs cb).trace ∧
    (runSetup (runSetup fs ca).fs cb).setupArgs = none := by
  have hm2 : fsLookup fs "../core/src/main/scala/org/apache/spark/SparkContext.scala" = none := hm
  rw [staged_run_eq fs ca c1 c2 hm hsrc1 hsrc2 hbin hfshT hpy hpp hppp hshT]
  simp [runSetup, detectInSpark, isfile, resolve1, fsLookup_cons, hm2, markerPath,
    runTryFinally, tryBody, copyfile, readFile, writeFile, isDirOrRoot, isdir,
    SCRIPTS_TARGET, TEMP_PATH, parentOf_fsh_target, parentOf_bin,
    hsrc1, hbin, hfshT, hpy,
    osMakedirs, pathPrefixes_subpkg, makedirsAux,
    fsSet, fsRemoveKey_cons, fsRemoveKey_of_lookup_none,
    teardown, combineOutcome]

/-- A Staged-context example filesystem: marker absent, the scripts directory
`deps/bin` present and containing `run.sh`, both copy sources present. -/
def fsStagedEx : FS := [
  ("pyspark", Node.dir),
  ("pyspark/find_spark_home.py", Node.file "FIND_SPARK_HOME"),
  ("pyspark/shell.py", Node.file "SHELL"),
  ("deps/bin", Node.dir),
  ("deps/bin/run.sh", Node.file "RUN")
]

/-- Collaborators that behave: pypandoc missing (the benign, handled case),
archiver succeeds without touching the filesystem, no mkdir fault. -/
def collabOk : Collab :=
  { conv := ConvResult.unavailable, archErr := none, archEffect := id, mkdirFault := none }

/-- C1: on the concrete Staged-context input of the spec's end-to-end example
(marker absent, `run.sh` staged in `deps/bin`, both copy sources present,
well-behaved collaborators), the run does NOT complete with exit code 0: it
dies with `NameError` on `long_description` (assigned only in the InTree
branch) after the copies, never reaching the archiver. -/
theorem staged_run_raises_name_error :
    (runSetup fsStagedEx collabOk).outcome =
      Outcome.failure ⟨Err.nameError "long_description", none⟩ ∧
    exitCode (runSetup fsStagedEx collabOk).outcome ≠ 0 ∧
    Event.archiverCall ∉ (runSetup fsStagedEx collabOk).trace ∧
    (runSetup fsStagedEx collabOk).setupArgs = none ∧
    fsLookup (runSetup fsStagedEx collabOk).fs "deps/bin/find_spark_home.py" =
      some (Node.file "FIND_SPARK_HOME") ∧
    fsLookup (runSetup fsStagedEx collabOk).fs "pyspark/python/pyspark/shell.py" =
      some (Node.file "SHELL") := by
  decide

/-- Witness for C6 at the concrete Staged example. -/
theorem staged_copies_and_no_staging_root_witness :
    fsLookup (runSetup fsStagedEx collabOk).fs "deps/bin/find_spark_home.py" =
      some (Node.file "FIND_SPARK_HOME") ∧
    Event.mkdirE TEMP_PATH ∉ (runSetup fsStagedEx collabOk).trace :=
  ⟨(staged_copies_and_no_staging_root fsStagedEx collabOk "FIND_SPARK_HOME" "SHELL"
      (by decide) (by decide) (by decide) (by decide) (by decide) (by decide)
      (by decide) (by decide) (by decide)).1,
   (staged_copies_and_no_staging_root fsStagedEx collabOk "FIND_SPARK_HOME" "SHELL"
      (by decide) (by decide) (by decide) (by decide) (by decide) (by decide)
      (by decide) (by decide) (by decide)).2.2.1⟩

/-- Witness for C9 at the concrete Staged example. -/
theorem second_staged_run_fails_makedirs_witness :
    (runSetup (runSetup fsStagedEx collabOk).fs collabOk).outcome =
      Outcome.failure ⟨Err.fileExists "pyspark/python/pyspark", none⟩ :=
  (second_staged_run_fails_makedirs fsStagedEx collabOk collabOk "FIND_SPARK_HOME" "SHELL"
      (by decide) (by decide) (by decide) (by decide) (by decide) (by decide)
      (by decide) (by decide) (by decide)).1

/-! ### InTree-context runs -/


/-- The filesystem right after the InTree symlink farm is built: the three
symlink entries and the staging root on top of the initial filesystem. -/
def linkedFS (fs : FS) : FS :=
  ("deps/examples", Node.symlink EXAMPLES_PATH) ::
  ("deps/bin", Node.symlink SCRIPTS_PATH) ::
  ("deps/jars", Node.symlink JARS_PATH) ::
  ("deps", Node.dir) :: fs

/-- The filesystem after an archiver that deleted the jars linkage entry:
`linkedFS` minus `deps/jars`. -/
def brokenFS (fs : FS) : FS :=
  ("deps/examples", Node.symlink EXAMPLES_PATH) ::
  ("deps/bin", Node.symlink SCRIPTS_PATH) ::
  ("deps", Node.dir) :: fs

/-- Events of staging-root creation and the symlink farm, in order. -/
def farmTrace : List Event :=
  [Event.mkdirE "deps",
   Event.symlinkE JARS_PATH JARS_TARGET,
   Event.symlinkE SCRIPTS_PATH SCRIPTS_TARGET,
   Event.symlinkE EXAMPLES_PATH EXAMPLES_TARGET]

/-- Events of a complete teardown, in order. -/
def teardownTrace : List Event :=
  [Event.removeE "deps/jars", Event.removeE "deps/bin", Event.removeE "deps/examples",
   Event.rmdirE "deps"]

/-- The metadata the script hands to the archiver in an InTree run: fixed
identity fields plus the enumerated scripts of the monorepo bin directory
(seen through the `deps/bin` symlink). -/
def assembledArgs (fs : FS) (ld : String) : SetupArgs :=
  { pkgName := "pyspark", version := VERSION, long_description := ld,
    scripts := (childNames fs "../bin").map (fun s => "deps/bin/" ++ s) }

/-- In InTree context the guarded `os.mkdir` succeeds on a clean tree and the
rest of the script runs from the staging-root state. -/
theorem runSetup_inTree_mkdir (fs : FS) (collab : Collab) (cm : String)
    (hm : fsLookup fs "../core/src/main/scala/org/apache/spark/SparkContext.scala" =
      some (Node.file cm))
    (hfault : collab.mkdirFault = none)
    (hd : fsLookup fs "deps" = none) :
    runSetup fs collab =
      runTryFinally collab true
        { fs := ("deps", Node.dir) :: fs, trace := [Event.mkdirE "deps"],
          errOut := [], setupArgs := none } := by
  simp [runSetup, detectInSpark, isfile, resolve1, markerPath, hm, hfault, osMkdir,
    isDirOrRoot, parentOf_temp, fsSet, fsRemoveKey_of_lookup_none, hd, TEMP_PATH]

/-- The symlink farm on a clean staging root, converter succeeding. -/
theorem tryBody_inTree_converted (fs : FS) (collab : Collab) (t : String)
    (hd : fsLookup fs "deps" = none)
    (hj : fsLookup fs "deps/jars" = none)
    (hb : fsLookup fs "deps/bin" = none)
    (he : fsLookup fs "deps/examples" = none)
    (hc : collab.conv = ConvResult.converted t) :
    tryBody collab true
        { fs := ("deps", Node.dir) :: fs, trace := [Event.mkdirE "deps"],
          errOut := [], setupArgs := none } =
      pipelineTail collab (some t)
        { fs := linkedFS fs, trace := farmTrace, errOut := [], setupArgs := none } := by
  simp [tryBody, osSymlink, isDirOrRoot, isdir, resolve1, fsLookup_cons, hd, hj, hb, he, hc,
    TEMP_PATH, SPARK_HOME, JARS_PATH, EXAMPLES_PATH, SCRIPTS_PATH,
    JARS_TARGET, SCRIPTS_TARGET, EXAMPLES_TARGET, linkedFS, farmTrace,
    parentOf_jars, parentOf_bin, parentOf_examples,
    fsSet, fsRemoveKey_cons, fsRemoveKey_of_lookup_none]

/-- The symlink farm on a clean staging root, pypandoc unavailable: the
`ImportError` is caught, the warning printed, and the placeholder long
description used. -/
theorem tryBody_inTree_unavailable (fs : FS) (collab : Collab)
    (hd : fsLookup fs "deps" = none)
    (hj : fsLookup fs "deps/jars" = none)
    (hb : fsLookup fs "deps/bin" = none)
    (he : fsLookup fs "deps/examples" = none)
    (hc : collab.conv = ConvResult.unavailable) :
    tryBody collab true
        { fs := ("deps", Node.dir) :: fs, trace := [Event.mkdirE "deps"],
          errOut := [], setupArgs := none } =
      pipelineTail collab (some placeholderDescription)
        { fs := linkedFS fs, trace := farmTrace, errOut := [pandocMsg], setupArgs := none } := by
  simp [tryBody, osSymlink, isDirOrRoot, isdir, resolve1, fsLookup_cons, hd, hj, hb, he, hc,
    TEMP_PATH, SPARK_HOME, JARS_PATH, EXAMPLES_PATH, SCRIPTS_PATH,
    JARS_TARGET, SCRIPTS_TARGET, EXAMPLES_TARGET, linkedFS, farmTrace,
    parentOf_jars, parentOf_bin, parentOf_examples,
    fsSet, fsRemoveKey_cons, fsRemoveKey_of_lookup_none]

/-- The symlink farm on a clean staging root, converter raising any error
other than `ImportError`: the error leaves the try body. -/
theorem tryBody_inTree_convfail (fs : FS) (collab : Collab) (m : String)
    (hd : fsLookup fs "deps" = none)
    (hj : fsLookup fs "deps/jars" = none)
    (hb : fsLookup fs "deps/bin" = none)
    (he : fsLookup fs "deps/examples" = none)
    (hc : collab.conv = ConvResult.failed m) :
    tryBody collab true
        { fs := ("deps", Node.dir) :: fs, trace := [Event.mkdirE "deps"],
          errOut := [], setupArgs := none } =
      (Except.error (Err.converterError m),
       { fs := linkedFS fs, trace := farmTrace, errOut := [], setupArgs := none }) := by
  simp [tryBody, osSymlink, isDirOrRoot, isdir, resolve1, fsLookup_cons, hd, hj, hb, he, hc,
    TEMP_PATH, SPARK_HOME, JARS_PATH, EXAMPLES_PATH, SCRIPTS_PATH,
    JARS_TARGET, SCRIPTS_TARGET, EXAMPLES_TARGET, linkedFS, farmTrace,
    parentOf_jars, parentOf_bin, parentOf_examples,
    fsSet, fsRemoveKey_cons, fsRemoveKey_of_lookup_none]

/-- The validation/assembly/archiver tail on a linked filesystem whose
monorepo bin directory exists: validation passes through the `deps/bin`
symlink, the metadata is assembled, and the archiver is invoked. -/
theorem pipelineTail_linked (fs : FS) (collab : Collab) (ld : String)
    (T : List Event) (eo : List String)
    (hsb : fsLookup fs "../bin" = some Node.dir) :
    pipelineTail collab (some ld)
        { fs := linkedFS fs, trace := T, errOut := eo, setupArgs := none } =
      ((match collab.archErr with
        | some m => Except.error (Err.archiverError m)
        | none => Except.ok ()),
       { fs := collab.archEffect (linkedFS fs), trace := T ++ [Event.archiverCall],
         errOut := eo, setupArgs := some (assembledArgs fs ld) }) := by
  cases harch : collab.archErr <;>
    simp [pipelineTail, isdir, resolve1, fsLookup_cons, hsb, harch,
      osListdir, childNames, List.filter_cons, baseName, linkedFS, assembledArgs,
      TEMP_PATH, SPARK_HOME, SCRIPTS_PATH, SCRIPTS_TARGET, JARS_PATH, EXAMPLES_PATH,
      VERSION, parentOf_jars, parentOf_bin, parentOf_examples, parentOf_temp]

/-- The validation tail on a linked filesystem whose monorepo bin directory
is missing: the dangling `deps/bin` symlink fails the `isdir` validation, the
missing-artifacts message is printed and the script exits -1 without ever
reaching the archiver. -/
theorem pipelineTail_linked_noscripts (fs : FS) (collab : Collab) (ld : String)
    (T : List Event) (eo : List String)
    (hsb : fsLookup fs "../bin" = none) :
    pipelineTail collab (some ld)
        { fs := linkedFS fs, trace := T, errOut := eo, setupArgs := none } =
      (Except.error (Err.systemExit (-1)),
       { fs := linkedFS fs, trace := T, errOut := eo ++ [missingArtifactsMsg],
         setupArgs := none }) := by
  simp [pipelineTail, isdir, resolve1, fsLookup_cons, hsb,
    linkedFS, TEMP_PATH, SPARK_HOME, SCRIPTS_PATH, SCRIPTS_TARGET, JARS_PATH, EXAMPLES_PATH]

/-- Teardown on a linked filesystem: the three symlink entries are removed in
order, the emptied staging root is removed, and the filesystem is restored
exactly to its pre-run state. -/
theorem teardown_linked (fs : FS) (T : List Event) (eo : List String) (sa : Option SetupArgs)
    (hd : fsLookup fs "deps" = none)
    (hj : fsLookup fs "deps/jars" = none)
    (hb : fsLookup fs "deps/bin" = none)
    (he : fsLookup fs "deps/examples" = none)
    (hUnder : ∀ e ∈ fs, (parentOf e.1 == "deps") = false) :
    teardown true { fs := linkedFS fs, trace := T, errOut := eo, setupArgs := sa } =
      (Except.ok (), { fs := fs, trace := T ++ teardownTrace, errOut := eo, setupArgs := sa }) := by
  have hch : childNames (("deps", Node.dir) :: fs) "deps" = [] := by
    apply childNames_eq_nil
    intro e he2
    rcases List.mem_cons.mp he2 with h1 | h2
    · subst h1; decide
    · exact hUnder e h2
  simp [teardown, osRemove, osRmdir, fsLookup_cons, fsRemoveKey_cons,
    fsRemoveKey_of_lookup_none, hd, hj, hb, he, hch, linkedFS, teardownTrace,
    TEMP_PATH, SPARK_HOME, JARS_PATH, EXAMPLES_PATH, SCRIPTS_PATH]

/-- Teardown when the jars linkage entry has disappeared: the very first
removal raises `FileNotFoundError` and teardown stops there, leaving the
staging root and the other two links in place. -/
theorem teardown_broken (fs : FS) (T : List Event) (eo : List String) (sa : Option SetupArgs)
    (hj : fsLookup fs "deps/jars" = none) :
    teardown true { fs := brokenFS fs, trace := T, errOut := eo, setupArgs := sa } =
      (Except.error (Err.fileNotFound "deps/jars"),
       { fs := brokenFS fs, trace := T, errOut := eo, setupArgs := sa }) := by
  simp [teardown, osRemove, fsLookup_cons, hj, brokenFS,
    TEMP_PATH, SPARK_HOME, JARS_PATH, EXAMPLES_PATH, SCRIPTS_PATH]

/-- An archiver effect that deletes the jars linkage entry turns the linked
filesystem into the broken one. -/
theorem archEffect_removes_jars (fs : FS)
    (hj : fsLookup fs "deps/jars" = none) :
    fsRemoveKey (linkedFS fs) "deps/jars" = brokenFS fs := by
  simp [linkedFS, brokenFS, fsRemoveKey_cons, fsRemoveKey_of_lookup_none, hj,
    SPARK_HOME, JARS_PATH, EXAMPLES_PATH, SCRIPTS_PATH]

/-- A whole InTree run in which the converter produces a long description
(converted text, or the placeholder when pypandoc is unavailable) and the
archiver leaves the filesystem alone: the farm is built, validation passes,
the archiver receives the assembled metadata, teardown restores the
filesystem, and the outcome is success or the archiver's own error. -/
theorem inTree_run_ok_eq (fs : FS) (collab : Collab) (cm ld : String) (eo : List String)
    (hm : fsLookup fs "../core/src/main/scala/org/apache/spark/SparkContext.scala" =
      some (Node.file cm))
    (hfault : collab.mkdirFault = none)
    (hd : fsLookup fs "deps" = none)
    (hj : fsLookup fs "deps/jars" = none)
    (hb : fsLookup fs "deps/bin" = none)
    (he : fsLookup fs "deps/examples" = none)
    (hUnder : ∀ e ∈ fs, (parentOf e.1 == "deps") = false)
    (hsb : fsLookup fs "../bin" = some Node.dir)
    (heff : collab.archEffect = id)
    (hconv : (collab.conv = ConvResult.converted ld ∧ eo = []) ∨
             (collab.conv = ConvResult.unavailable ∧ ld = placeholderDescription ∧
              eo = [pandocMsg])) :
    runSetup fs collab =
      { outcome := match collab.archErr with
          | none => Outcome.success
          | some m => Outcome.failure ⟨Err.archiverError m, none⟩,
        fs := fs,
        trace := farmTrace ++ [Event.archiverCall] ++ teardownTrace,
        errOut := eo,
        setupArgs := some (assembledArgs fs ld) } := by
  rw [runSetup_inTree_mkdir fs collab cm hm hfault hd]
  rcases hconv with ⟨hc, rfl⟩ | ⟨hc, rfl, rfl⟩
  · have h1 := tryBody_inTree_converted fs collab ld hd hj hb he hc
    have h2 := pipelineTail_linked fs collab ld farmTrace [] hsb
    have h3 := teardown_linked fs (farmTrace ++ [Event.archiverCall]) []
      (some (assembledArgs fs ld)) hd hj hb he hUnder
    cases harch : collab.archErr <;>
      simp [runTryFinally, h1, h2, h3, heff, combineOutcome, harch, List.append_assoc]
  · have h1 := tryBody_inTree_unavailable fs collab hd hj hb he hc
    have h2 := pipelineTail_linked fs collab placeholderDescription farmTrace [pandocMsg] hsb
    have h3 := teardown_linked fs (farmTrace ++ [Event.archiverCall]) [pandocMsg]
      (some (assembledArgs fs placeholderDescription)) hd hj hb he hUnder
    cases harch : collab.archErr <;>
      simp [runTryFinally, h1, h2, h3, heff, combineOutcome, harch, List.append_assoc]

/-- A whole InTree run in which the converter raises an error other than
`ImportError`: the error propagates, teardown still restores the filesystem,
and the archiver is never invoked. -/
theorem inTree_run_convfail_eq (fs : FS) (collab : Collab) (cm m : String)
    (hm : fsLookup fs "../core/src/main/scala/org/apache/spark/SparkContext.scala" =
      some (Node.file cm))
    (hfault : collab.mkdirFault = none)
    (hd : fsLookup fs "deps" = none)
    (hj : fsLookup fs "deps/jars" = none)
    (hb : fsLookup fs "deps/bin" = none)
    (he : fsLookup fs "deps/examples" = none)
    (hUnder : ∀ e ∈ fs, (parentOf e.1 == "deps") = false)
    (hc : collab.conv = ConvResult.failed m) :
    runSetup fs collab =
      { outcome := Outcome.failure ⟨Err.converterError m, none⟩,
        fs := fs,
        trace := farmTrace ++ teardownTrace,
        errOut := [],
        setupArgs := none } := by
  rw [runSetup_inTree_mkdir fs collab cm hm hfault hd]
  have h1 := tryBody_inTree_convfail fs collab m hd hj hb he hc
  have h3 := teardown_linked fs farmTrace [] none hd hj hb he hUnder
  simp [runTryFinally, h1, h3, combineOutcome]

/-- A whole InTree run in which the monorepo bin directory is missing, so the
`deps/bin` symlink dangles: the converter step still runs, validation fails,
the missing-artifacts message is printed, the script exits -1, the archiver
is never invoked, and teardown restores the filesystem. -/
theorem inTree_run_noscripts_eq (fs : FS) (collab : Collab) (cm ld : String) (eo : List String)
    (hm : fsLookup fs "../core/src/main/scala/org/apache/spark/SparkContext.scala" =
      some (Node.file cm))
    (hfault : collab.mkdirFault = none)
    (hd : fsLookup fs "deps" = none)
    (hj : fsLookup fs "deps/jars" = none)
    (hb : fsLookup fs "deps/bin" = none)
    (he : fsLookup fs "deps/examples" = none)
    (hUnder : ∀ e ∈ fs, (parentOf e.1 == "deps") = false)
    (hsb : fsLookup fs "../bin" = none)
    (hconv : (collab.conv = ConvResult.converted ld ∧ eo = []) ∨
             (collab.conv = ConvResult.unavailable ∧ ld = placeholderDescription ∧
              eo = [pandocMsg])) :
    runSetup fs collab =
      { outcome := Outcome.failure ⟨Err.systemExit (-1), none⟩,
        fs := fs,
        trace := farmTrace ++ teardownTrace,
        errOut := eo ++ [missingArtifactsMsg],
        setupArgs := none } := by
  rw [runSetup_inTree_mkdir fs collab cm hm hfault hd]
  rcases hconv with ⟨hc, rfl⟩ | ⟨hc, rfl, rfl⟩
  · have h1 := tryBody_inTree_converted fs collab ld hd hj hb he hc
    have h2 := pipelineTail_linked_noscripts fs collab ld farmTrace [] hsb
    have h3 := teardown_linked fs farmTrace [missingArtifactsMsg] none hd hj hb he hUnder
    simp [runTryFinally, h1, h2, h3, combineOutcome]
  · have h1 := tryBody_inTree_unavailable fs collab hd hj hb he hc
    have h2 := pipelineTail_linked_noscripts fs collab placeholderDescription farmTrace
      [pandocMsg] hsb
    have h3 := teardown_linked fs farmTrace [pandocMsg, missingArtifactsMsg] none
      hd hj hb he hUnder
    simp [runTryFinally, h1, h2, h3, combineOutcome]

/-- A whole InTree run in which the archiver deletes the jars linkage entry
and then raises: teardown's first removal fails with `FileNotFoundError`,
which replaces the archiver error as the surfaced error, keeping the
archiver error as its context; the staging root and the two remaining links
are left behind. -/
theorem inTree_run_archbreak_eq (fs : FS) (collab : Collab) (cm ld m : String)
    (eo : List String)
    (hm : fsLookup fs "../core/src/main/scala/org/apache/spark/SparkContext.scala" =
      some (Node.file cm))
    (hfault : collab.mkdirFault = none)
    (hd : fsLookup fs "deps" = none)
    (hj : fsLookup fs "deps/jars" = none)
    (hb : fsLookup fs "deps/bin" = none)
    (he : fsLookup fs "deps/examples" = none)
    (hsb : fsLookup fs "../bin" = some Node.dir)
    (heff : collab.archEffect = fun g => fsRemoveKey g "deps/jars")
    (harch : collab.archErr = some m)
    (hconv : (collab.conv = ConvResult.converted ld ∧ eo = []) ∨
             (collab.conv = ConvResult.unavailable ∧ ld = placeholderDescription ∧
              eo = [pandocMsg])) :
    runSetup fs collab =
      { outcome := Outcome.failure ⟨Err.fileNotFound "deps/jars",
          some (Err.archiverError m)⟩,
        fs := brokenFS fs,
        trace := farmTrace ++ [Event.archiverCall],
        errOut := eo,
        setupArgs := some (assembledArgs fs ld) } := by
  rw [runSetup_inTree_mkdir fs collab cm hm hfault hd]
  rcases hconv with ⟨hc, rfl⟩ | ⟨hc, rfl, rfl⟩
  · have h1 := tryBody_inTree_converted fs collab ld hd hj hb he hc
    have h2 := pipelineTail_linked fs collab ld farmTrace [] hsb
    have h4 := archEffect_removes_jars fs hj
    have h3 := teardown_broken fs (farmTrace ++ [Event.archiverCall]) []
      (some (assembledArgs fs ld)) hj
    simp [runTryFinally, h1, h2, heff, h4, h3, combineOutcome, harch]
  · have h1 := tryBody_inTree_unavailable fs collab hd hj hb he hc
    have h2 := pipelineTail_linked fs collab placeholderDescription farmTrace [pandocMsg] hsb
    have h4 := archEffect_removes_jars fs hj
    have h3 := teardown_broken fs (farmTrace ++ [Event.archiverCall]) [pandocMsg]
      (some (assembledArgs fs placeholderDescription)) hj
    simp [runTryFinally, h1, h2, heff, h4, h3, combineOutcome, harch]

/-! ### Concrete example inputs and claim theorems for InTree runs -/

/-- A clean InTree example filesystem: marker present, monorepo bin directory
with one launcher script. -/
def fsInTreeEx : FS := [
  ("../core/src/main/scala/org/apache/spark/SparkContext.scala", Node.file "SparkContext"),
  ("../bin", Node.dir),
  ("../bin/run.sh", Node.file "RUN")
]

/-- An InTree example whose monorepo bin directory exists but is empty. -/
def fsInTreeEmptyBin : FS := [
  ("../core/src/main/scala/org/apache/spark/SparkContext.scala", Node.file "SparkContext"),
  ("../bin", Node.dir)
]

/-- Collaborators with a well-behaved filesystem but a failing archiver. -/
def collabArchFail : Collab :=
  { conv := ConvResult.unavailable, archErr := some "archiver exploded",
    archEffect := id, mkdirFault := none }

/-- Collaborators whose archiver deletes the jars linkage entry and raises. -/
def collabBreak : Collab :=
  { conv := ConvResult.unavailable, archErr := some "archiver exploded",
    archEffect := fun g => fsRemoveKey g "deps/jars", mkdirFault := none }

/-- Well-behaved collaborators except that `os.mkdir` hits an environmental
permission error. -/
def collabFault : Collab :=
  { collabOk with mkdirFault := some "permission denied" }

/-- True exactly on symlink-creation events. -/
def isSymlinkEvent : Event → Bool
  | Event.symlinkE _ _ => true
  | _ => false

/-- True exactly on removal events (entry removal or staging-root removal). -/
def isRemovalEvent : Event → Bool
  | Event.removeE _ => true
  | Event.rmdirE _ => true
  | _ => false

/-- The error a run reports to its caller, if any. -/
def surfacedErr : Outcome → Option Err
  | Outcome.success => none
  | Outcome.failure f => some f.err

/-- C2 counterexample: with the scripts-target directory existing but empty
after linkage, the run does not fail at all — validation passes, the
archiver is invoked with an empty script list, and no missing-artifacts
message is printed, so the claimed non-emptiness assertion does not exist. -/
theorem empty_scripts_dir_passes_validation :
    (runSetup fsInTreeEmptyBin collabOk).outcome = Outcome.success ∧
    Event.archiverCall ∈ (runSetup fsInTreeEmptyBin collabOk).trace ∧
    (runSetup fsInTreeEmptyBin collabOk).setupArgs =
      some { pkgName := "pyspark", version := VERSION,
             long_description := placeholderDescription, scripts := [] } ∧
    missingArtifactsMsg ∉ (runSetup fsInTreeEmptyBin collabOk).errOut := by
  decide

/-- C2 amended: the validator asserts only that the scripts-target directory
exists. When it does not, the run prints the missing-artifacts message and
exits -1 without attempting manifest assembly; when it exists but is empty,
validation passes and manifest assembly is attempted with an empty script
list. -/
theorem validator_checks_existence_only (fs : FS) (collab : Collab) (cm ld : String)
    (eo : List String)
    (hm : fsLookup fs "../core/src/main/scala/org/apache/spark/SparkContext.scala" =
      some (Node.file cm))
    (hfault : collab.mkdirFault = none)
    (hd : fsLookup fs "deps" = none)
    (hj : fsLookup fs "deps/jars" = none)
    (hb : fsLookup fs "deps/bin" = none)
    (he : fsLookup fs "deps/examples" = none)
    (hUnder : ∀ e ∈ fs, (parentOf e.1 == "deps") = false)
    (heff : collab.archEffect = id)
    (hconv : (collab.conv = ConvResult.converted ld ∧ eo = []) ∨
             (collab.conv = ConvResult.unavailable ∧ ld = placeholderDescription ∧
              eo = [pandocMsg])) :
    (fsLookup fs "../bin" = none →
      (runSetup fs collab).outcome = Outcome.failure ⟨Err.systemExit (-1), none⟩ ∧
      Event.archiverCall ∉ (runSetup fs collab).trace ∧
      missingArtifactsMsg ∈ (runSetup fs collab).errOut ∧
      (runSetup fs collab).setupArgs = none) ∧
    (fsLookup fs "../bin" = some Node.dir → childNames fs "../bin" = [] →
      Event.archiverCall ∈ (runSetup fs collab).trace ∧
      (runSetup fs collab).setupArgs = some (assembledArgs fs ld) ∧
      (assembledArgs fs ld).scripts = []) := by
  constructor
  · intro hsb
    rw [inTree_run_noscripts_eq fs collab cm ld eo hm hfault hd hj hb he hUnder hsb hconv]
    refine ⟨rfl, ?_, ?_, rfl⟩
    · simp [farmTrace, teardownTrace]
    · simp
  · intro hsb hempty
    rw [inTree_run_ok_eq fs collab cm ld eo hm hfault hd hj hb he hUnder hsb heff hconv]
    refine ⟨?_, rfl, ?_⟩
    · simp [farmTrace, teardownTrace]
    · simp [assembledArgs, hempty]

/-- Witness for the amended C2 at the empty-bin example. -/
theorem validator_checks_existence_only_witness :
    Event.archiverCall ∈ (runSetup fsInTreeEmptyBin collabOk).trace ∧
    (runSetup fsInTreeEmptyBin collabOk).setupArgs =
      some (assembledArgs fsInTreeEmptyBin placeholderDescription) := by
  have h := (validator_checks_existence_only fsInTreeEmptyBin collabOk "SparkContext"
      placeholderDescription [pandocMsg] (by decide) rfl (by decide) (by decide)
      (by decide) (by decide) (by decide) rfl
      (Or.inr ⟨rfl, rfl, rfl⟩)).2 (by decide) (by decide)
  exact ⟨h.1, h.2.1⟩

/-- C3: if the archiver raises any error after linkage was established (and
leaves the filesystem alone), teardown still removes all linkage entries and
the staging root — the filesystem is restored exactly — and the archiver's
own error is the one surfaced to the caller. -/
theorem archiver_error_teardown_restores (fs : FS) (collab : Collab) (cm ld m : String)
    (eo : List String)
    (hm : fsLookup fs "../core/src/main/scala/org/apache/spark/SparkContext.scala" =
      some (Node.file cm))
    (hfault : collab.mkdirFault = none)
    (hd : fsLookup fs "deps" = none)
    (hj : fsLookup fs "deps/jars" = none)
    (hb : fsLookup fs "deps/bin" = none)
    (he : fsLookup fs "deps/examples" = none)
    (hUnder : ∀ e ∈ fs, (parentOf e.1 == "deps") = false)
    (hsb : fsLookup fs "../bin" = some Node.dir)
    (heff : collab.archEffect = id)
    (hconv : (collab.conv = ConvResult.converted ld ∧ eo = []) ∨
             (collab.conv = ConvResult.unavailable ∧ ld = placeholderDescription ∧
              eo = [pandocMsg]))
    (harch : collab.archErr = some m) :
    (runSetup fs collab).outcome = Outcome.failure ⟨Err.archiverError m, none⟩ ∧
    (runSetup fs collab).fs = fs ∧
    fsLookup (runSetup fs collab).fs "deps" = none ∧
    fsLookup (runSetup fs collab).fs "deps/jars" = none ∧
    fsLookup (runSetup fs collab).fs "deps/bin" = none ∧
    fsLookup (runSetup fs collab).fs "deps/examples" = none := by
  rw [inTree_run_ok_eq fs collab cm ld eo hm hfault hd hj hb he hUnder hsb heff hconv]
  exact ⟨by simp [harch], rfl, hd, hj, hb, he⟩

/-- Witness for C3 at the clean InTree example with a failing archiver. -/
theorem archiver_error_teardown_restores_witness :
    (runSetup fsInTreeEx collabArchFail).outcome =
      Outcome.failure ⟨Err.archiverError "archiver exploded", none⟩ ∧
    (runSetup fsInTreeEx collabArchFail).fs = fsInTreeEx := by
  have h := archiver_error_teardown_restores fsInTreeEx collabArchFail "SparkContext"
    placeholderDescription "archiver exploded" [pandocMsg] (by decide) rfl (by decide)
    (by decide) (by decide) (by decide) (by decide) (by decide) rfl
    (Or.inr ⟨rfl, rfl, rfl⟩) rfl
  exact ⟨h.1, h.2.1⟩

/-- C5: in an InTree run that reaches the converter, if pypandoc is
unavailable (`ImportError`) the run still completes successfully with the
placeholder long description and the warning printed; any other converter
failure propagates to the caller. -/
theorem converter_unavailable_placeholder (fs : FS) (collab : Collab) (cm : String)
    (hm : fsLookup fs "../core/src/main/scala/org/apache/spark/SparkContext.scala" =
      some (Node.file cm))
    (hfault : collab.mkdirFault = none)
    (hd : fsLookup fs "deps" = none)
    (hj : fsLookup fs "deps/jars" = none)
    (hb : fsLookup fs "deps/bin" = none)
    (he : fsLookup fs "deps/examples" = none)
    (hUnder : ∀ e ∈ fs, (parentOf e.1 == "deps") = false)
    (hsb : fsLookup fs "../bin" = some Node.dir)
    (heff : collab.archEffect = id)
    (harchn : collab.archErr = none) :
    (collab.conv = ConvResult.unavailable →
      (runSetup fs collab).outcome = Outcome.success ∧
      exitCode (runSetup fs collab).outcome = 0 ∧
      ((runSetup fs collab).setupArgs.map SetupArgs.long_description) =
        some placeholderDescription ∧
      pandocMsg ∈ (runSetup fs collab).errOut) ∧
    (∀ m, collab.conv = ConvResult.failed m →
      (runSetup fs collab).outcome = Outcome.failure ⟨Err.converterError m, none⟩) := by
  constructor
  · intro hc
    rw [inTree_run_ok_eq fs collab cm placeholderDescription [pandocMsg] hm hfault hd hj
      hb he hUnder hsb heff (Or.inr ⟨hc, rfl, rfl⟩)]
    refine ⟨by simp [harchn], by simp [harchn, exitCode], by simp [assembledArgs], by simp⟩
  · intro m hc
    rw [inTree_run_convfail_eq fs collab cm m hm hfault hd hj hb he hUnder hc]

/-- Witness for C5 at the clean InTree example with pypandoc unavailable. -/
theorem converter_unavailable_placeholder_witness :
    (runSetup fsInTreeEx collabOk).outcome = Outcome.success ∧
    ((runSetup fsInTreeEx collabOk).setupArgs.map SetupArgs.long_description) =
      some placeholderDescription := by
  have h := (converter_unavailable_placeholder fsInTreeEx collabOk "SparkContext"
    (by decide) rfl (by decide) (by decide) (by decide) (by decide) (by decide)
    (by decide) rfl rfl).1 rfl
  exact ⟨h.1, h.2.2.1⟩

/-- C7 counterexample: on a clean InTree run the Linkage Builder establishes
three linkage entries, not four. -/
theorem three_linkage_entries_not_four :
    ((runSetup fsInTreeEx collabOk).trace.filter isSymlinkEvent).length = 3 ∧
    ¬(((runSetup fsInTreeEx collabOk).trace.filter isSymlinkEvent).length = 4) := by
  decide

/-- C7 amended: in every InTree run that builds the farm, exactly three
linkage entries are established (jars, bin, examples, in that order), and
teardown removes exactly those three entries and then the staging root, each
exactly once. -/
theorem linkage_three_entries_each_removed_once (fs : FS) (collab : Collab) (cm : String)
    (hm : fsLookup fs "../core/src/main/scala/org/apache/spark/SparkContext.scala" =
      some (Node.file cm))
    (hfault : collab.mkdirFault = none)
    (hd : fsLookup fs "deps" = none)
    (hj : fsLookup fs "deps/jars" = none)
    (hb : fsLookup fs "deps/bin" = none)
    (he : fsLookup fs "deps/examples" = none)
    (hUnder : ∀ e ∈ fs, (parentOf e.1 == "deps") = false)
    (hsb : fsLookup fs "../bin" = some Node.dir)
    (heff : collab.archEffect = id) :
    ((runSetup fs collab).trace.filter isSymlinkEvent) =
      [Event.symlinkE JARS_PATH JARS_TARGET,
       Event.symlinkE SCRIPTS_PATH SCRIPTS_TARGET,
       Event.symlinkE EXAMPLES_PATH EXAMPLES_TARGET] ∧
    ((runSetup fs collab).trace.filter isRemovalEvent) =
      [Event.removeE "deps/jars", Event.removeE "deps/bin",
       Event.removeE "deps/examples", Event.rmdirE "deps"] := by
  cases hc : collab.conv with
  | converted t =>
    rw [inTree_run_ok_eq fs collab cm t [] hm hfault hd hj hb he hUnder hsb heff
      (Or.inl ⟨hc, rfl⟩)]
    constructor <;>
      simp [farmTrace, teardownTrace, isSymlinkEvent, isRemovalEvent, List.filter_cons]
  | unavailable =>
    rw [inTree_run_ok_eq fs collab cm placeholderDescription [pandocMsg] hm hfault hd hj
      hb he hUnder hsb heff (Or.inr ⟨hc, rfl, rfl⟩)]
    constructor <;>
      simp [farmTrace, teardownTrace, isSymlinkEvent, isRemovalEvent, List.filter_cons]
  | failed m =>
    rw [inTree_run_convfail_eq fs collab cm m hm hfault hd hj hb he hUnder hc]
    constructor <;>
      simp [farmTrace, teardownTrace, isSymlinkEvent, isRemovalEvent, List.filter_cons]

/-- Witness for the amended C7 at the clean InTree example. -/
theorem linkage_three_entries_each_removed_once_witness :
    ((runSetup fsInTreeEx collabOk).trace.filter isSymlinkEvent) =
      [Event.symlinkE JARS_PATH JARS_TARGET,
       Event.symlinkE SCRIPTS_PATH SCRIPTS_TARGET,
       Event.symlinkE EXAMPLES_PATH EXAMPLES_TARGET] :=
  (linkage_three_entries_each_removed_once fsInTreeEx collabOk "SparkContext"
    (by decide) rfl (by decide) (by decide) (by decide) (by decide) (by decide)
    (by decide) rfl).1

/-- C8 counterexample: when the archiver error and a teardown removal error
both occur, the error surfaced to the caller is the teardown error, not the
original packaging error — the packaging error survives only as the chained
context. -/
theorem teardown_error_masks_archiver_error :
    (runSetup fsInTreeEx collabBreak).outcome =
      Outcome.failure ⟨Err.fileNotFound "deps/jars",
        some (Err.archiverError "archiver exploded")⟩ ∧
    surfacedErr (runSetup fsInTreeEx collabBreak).outcome =
      some (Err.fileNotFound "deps/jars") ∧
    surfacedErr (runSetup fsInTreeEx collabBreak).outcome ≠
      some (Err.archiverError "archiver exploded") := by
  decide

/-- C8 amended: when a packaging error and a teardown removal error both
occur, both are surfaced to the caller as a chained pair, but the teardown
error takes priority as the reported cause and the original packaging error
is preserved as its context; the staging root is left behind. -/
theorem both_errors_surfaced_teardown_primary (fs : FS) (collab : Collab)
    (cm ld m : String) (eo : List String)
    (hm : fsLookup fs "../core/src/main/scala/org/apache/spark/SparkContext.scala" =
      some (Node.file cm))
    (hfault : collab.mkdirFault = none)
    (hd : fsLookup fs "deps" = none)
    (hj : fsLookup fs "deps/jars" = none)
    (hb : fsLookup fs "deps/bin" = none)
    (he : fsLookup fs "deps/examples" = none)
    (hsb : fsLookup fs "../bin" = some Node.dir)
    (heff : collab.archEffect = fun g => fsRemoveKey g "deps/jars")
    (harch : collab.archErr = some m)
    (hconv : (collab.conv = ConvResult.converted ld ∧ eo = []) ∨
             (collab.conv = ConvResult.unavailable ∧ ld = placeholderDescription ∧
              eo = [pandocMsg])) :
    (runSetup fs collab).outcome =
      Outcome.failure ⟨Err.fileNotFound "deps/jars", some (Err.archiverError m)⟩ ∧
    fsLookup (runSetup fs collab).fs "deps" = some Node.dir := by
  rw [inTree_run_archbreak_eq fs collab cm ld m eo hm hfault hd hj hb he hsb heff
    harch hconv]
  refine ⟨rfl, ?_⟩
  simp [brokenFS, fsLookup_cons, SPARK_HOME, SCRIPTS_PATH, EXAMPLES_PATH]

/-- Witness for the amended C8 at the clean InTree example with the
link-deleting, failing archiver. -/
theorem both_errors_surfaced_teardown_primary_witness :
    (runSetup fsInTreeEx collabBreak).outcome =
      Outcome.failure ⟨Err.fileNotFound "deps/jars",
        some (Err.archiverError "archiver exploded")⟩ ∧
    fsLookup (runSetup fsInTreeEx collabBreak).fs "deps" = some Node.dir :=
  both_errors_surfaced_teardown_primary fsInTreeEx collabBreak "SparkContext"
    placeholderDescription "archiver exploded" [pandocMsg] (by decide) rfl (by decide)
    (by decide) (by decide) (by decide) (by decide) rfl rfl (Or.inr ⟨rfl, rfl, rfl⟩)

/-- Witness for C4: the first run (whose archiver broke teardown) leaves the
staging root behind, and the second run fails with the already-staged exit,
touching nothing. -/
theorem second_run_already_staged_witness :
    runSetup (runSetup fsInTreeEx collabBreak).fs collabOk =
      { outcome := Outcome.failure ⟨Err.systemExit (-1), none⟩,
        fs := (runSetup fsInTreeEx collabBreak).fs, trace := [],
        errOut := [alreadyStagedMsg], setupArgs := none } :=
  (second_run_already_staged fsInTreeEx collabBreak collabOk "SparkContext" Node.dir
    (by decide) (by decide)).1

/-- Witness for C10: a permission fault on `os.mkdir` on a clean tree is
reported as the already-staged condition with exit -1 and no side effects. -/
theorem mkdir_fault_reports_already_staged_witness :
    runSetup fsInTreeEx collabFault =
      { outcome := Outcome.failure ⟨Err.systemExit (-1), none⟩,
        fs := fsInTreeEx, trace := [], errOut := [alreadyStagedMsg],
        setupArgs := none } :=
  (mkdir_fault_reports_already_staged fsInTreeEx collabFault "SparkContext"
    "permission denied" (by decide) rfl (by decide)).1
